import Mathlib

set_option linter.unusedVariables false

/-!
# Verification of the invoice-processing pipeline

Shallow embedding of the extraction-to-tax-calculation pipeline:
`tax_matcher.py` (TaxMatcher), `invoice_extractor.py` (InvoiceExtractor) and
`invoice_processor.py` (InvoiceProcessor).  The external inference capability
(OpenAI chat completions) is out of scope per the design: each call site takes
the call's outcome as an explicit oracle argument.  Python floats are modelled
as exact rationals (ℚ); `round(x, 2)` is modelled as round-half-to-even on ℚ
(Python's documented rounding mode; binary-representation artifacts of IEEE
floats are outside the model and no property below depends on them).
Token counts are naturals.  Console printing is not modelled.
-/

namespace Invoice

/-- Python `s.strip()` on a list of characters: drop whitespace at both
ends.  (Python strips all Unicode whitespace; the invoices pipeline only
meets ASCII whitespace, which `Char.isWhitespace` covers.) -/
def pyStripList (cs : List Char) : List Char :=
  ((cs.dropWhile Char.isWhitespace).reverse.dropWhile Char.isWhitespace).reverse

/-- Python `s.strip()`. -/
def pyStrip (s : String) : String := ⟨pyStripList s.data⟩

/-- Python `s.lower()` (ASCII case folding, which is all the category names
use). -/
def pyLower (s : String) : String := ⟨s.data.map Char.toLower⟩

/-- Python `s.upper()` (ASCII case folding). -/
def pyUpper (s : String) : String := ⟨s.data.map Char.toUpper⟩

/-- Python's substring test `a in b` on strings: `a.toList` occurs as a
contiguous sublist of `b.toList`.  In Python the empty string is a substring
of every string, and so it is here (`[].isPrefixOf` holds of every tail). -/
def pyInStr (a b : String) : Bool :=
  (b.data.tails.any (fun t => a.data.isPrefixOf t))

/-- Round-half-to-even to an integer, the rounding Python's builtin `round`
documents ("banker's rounding"). -/
def roundHalfEven (q : ℚ) : ℤ :=
  let f := ⌊q⌋
  let r := q - (f : ℚ)
  if r < 1/2 then f
  else if 1/2 < r then f + 1
  else if f % 2 = 0 then f else f + 1

/-- Model of Python `round(x, 2)`. -/
def round2 (q : ℚ) : ℚ := (roundHalfEven (q * 100) : ℚ) / 100

/-- The tax-category table: the `(Category, Tax Rate (%))` rows in load
order, as appended to `TaxMatcher.categories` by `_load_tax_rates`.  The
dict `TaxMatcher.tax_rates` is recovered by `dictGet` below. -/
abbrev Table := List (String × ℚ)

/-- Lookup in the `tax_rates` dict.  Python dict insertion overwrites, so on
duplicate keys the LAST loaded binding wins. -/
def dictGet (t : Table) (k : String) : Option ℚ :=
  (t.reverse.find? (fun e => e.1 == k)).map (fun e => e.2)

/-- Python `d.get(k, default)`. -/
def dictGetD (t : Table) (k : String) (d : ℚ) : ℚ := (dictGet t k).getD d

/-- Python `k in d` on the `tax_rates` dict. -/
def dictContains (t : Table) (k : String) : Bool := t.any (fun e => e.1 == k)

/-- Prompt/completion token counters, `(last_prompt_tokens, last_completion_tokens)`. -/
abbrev Tok := Nat × Nat

/-- Outcome of one chat-completion call as seen by the wrapper code.
`failure` is an exception raised at (or before) the API call itself;
`success content usage` is a normal reply whose message content is the string
`content`, with `usage` the reported token counts when the response carried
them; `badContent usage` is a reply whose message content is `None`, so that
the usage capture succeeds but the subsequent `.strip()` raises. -/
inductive CallOutcome where
  | failure
  | success (content : String) (usage : Option Tok)
  | badContent (usage : Option Tok)
deriving DecidableEq

/-- The fallback category hard-coded in `TaxMatcher.match_category`. -/
def defaultCategory : String := "Packaged Snacks"

/-- The hard-coded fallback rate used when the fallback category is itself
absent from the table. -/
def defaultRate : ℚ := 4

/-- Embedding of `TaxMatcher.match_category`, with the matcher's counter state passed
explicitly.  Returns `((category, rate), new counters)`.

Resolution on a successful reply: strip the content; accept an exact dict
hit; otherwise scan `categories` in load order for a case-insensitive
substring match in either direction; otherwise fall back to
`("Packaged Snacks", tax_rates.get("Packaged Snacks", 4.0))`.  Any exception
(failed call, or `None` content making `.strip()` raise) is caught and yields
the same fallback pair.  Counters are assigned only when the response carried
usage; they are NOT reset otherwise. -/
def match_category (t : Table) (st : Tok) (pd : String) (outcome : CallOutcome) :
    (String × ℚ) × Tok :=
  match outcome with
  | .failure => ((defaultCategory, dictGetD t defaultCategory defaultRate), st)
  | .badContent usage =>
      let st' := match usage with | some u => u | none => st
      ((defaultCategory, dictGetD t defaultCategory defaultRate), st')
  | .success content usage =>
      let st' := match usage with | some u => u | none => st
      let category := pyStrip content
      if dictContains t category then
        ((category, dictGetD t category 0), st')
      else
        match t.find? (fun e =>
            pyInStr (pyLower e.1) (pyLower category) || pyInStr (pyLower category) (pyLower e.1)) with
        | some e => ((e.1, dictGetD t e.1 0), st')
        | none => ((defaultCategory, dictGetD t defaultCategory defaultRate), st')

/-- A JSON scalar as it may appear in a line item's numeric slot:
a number, a string, or JSON `null` (Python `None`). -/
inductive PyVal where
  | num (q : ℚ)
  | str (s : String)
  | pnull
deriving DecidableEq

/-- Digits to a natural number. -/
def natOfDigits (cs : List Char) : Nat :=
  cs.foldl (fun a c => a * 10 + (c.toNat - 48)) 0

/-- Python `float(s)` on a string: optional surrounding whitespace, optional
sign, decimal digits with an optional fractional part ("5", "5.", ".5",
"3.25").  Anything else fails.  (Exponents and specials like "inf" are not
produced by the extraction path and are not modelled.) -/
def pyFloatOfString (s : String) : Option ℚ :=
  let t := pyStripList s.data
  let (neg, body) :=
    match t with
    | '-' :: r => (true, r)
    | '+' :: r => (false, r)
    | r => (false, r)
  let intPart := body.takeWhile (fun c => c ≠ '.')
  let rest := body.dropWhile (fun c => c ≠ '.')
  let fracOf : List Char → Option (List Char)
    | [] => some []
    | '.' :: fr => some fr
    | _ => none
  match fracOf rest with
  | none => none
  | some frac =>
      if (intPart.isEmpty && frac.isEmpty) ||
         !(intPart.all Char.isDigit) || !(frac.all Char.isDigit) then none
      else
        let v : ℚ := (natOfDigits intPart : ℚ) +
          (natOfDigits frac : ℚ) / (10 ^ frac.length : ℚ)
        some (if neg then -v else v)

/-- Python `float(v)` applied to a value taken out of the extracted JSON:
numbers pass through, numeric strings parse, `None` and non-numeric strings
raise. -/
def pyFloat : PyVal → Except String ℚ
  | .num q => .ok q
  | .str s =>
      match pyFloatOfString s with
      | some q => .ok q
      | none => .error ("could not convert string to float: " ++ s)
  | .pnull => .error "float() argument must be a string or a real number, not NoneType"

/-- Python `item.get(key, default)`: the stored value (possibly `None`) if
the key is present, else the default. -/
def pyGet (v : Option PyVal) (d : PyVal) : PyVal := v.getD d

/-- One element of the extracted `line_items` array.  `none` in a field means
the key is absent from the JSON object. -/
structure RawItem where
  description : Option String := none
  quantity : Option PyVal := none
  unit_price : Option PyVal := none
  total : Option PyVal := none
deriving DecidableEq

/-- The parsed extraction response (`RawInvoiceExtraction`).  `none` marks a
key the JSON object lacks; `InvoiceProcessor.process_invoice` reads every
field through `.get` with a default. -/
structure RawInvoice where
  invoice_number : Option String := none
  vendor_name : Option String := none
  invoice_date : Option String := none
  line_items : Option (List RawItem) := none
  notes : Option String := none
deriving DecidableEq

/-- The sentinel returned when the document type is unsupported or PDF
rendering produced no images (the fallback return of
`extract_invoice_data`). -/
def unknownSentinel : RawInvoice :=
  { invoice_number := some "UNKNOWN"
    vendor_name := some "UNKNOWN"
    invoice_date := some ""
    line_items := some []
    notes := some "Failed to extract data" }

/-- The sentinel returned from the `except` block of
`extract_invoice_data` when the call or the JSON parse raised `msg`. -/
def errorSentinel (msg : String) : RawInvoice :=
  { invoice_number := some "ERROR"
    vendor_name := some "ERROR"
    invoice_date := some ""
    line_items := some []
    notes := some ("Extraction error: " ++ msg) }

/-- Outcome of the vision extraction call.  `callFailure msg` is an exception
raised at the API call (before usage capture); `parsed usage res` is a
returned response whose usage was `usage` (when reported) and whose content
then either parsed as JSON (`res = .ok r`) or made `json.loads` raise
(`res = .error msg`). -/
inductive ExtractOutcome where
  | callFailure (msg : String)
  | parsed (usage : Option Tok) (res : Except String RawInvoice)

/-- The inputs `InvoiceExtractor.extract_invoice_data` branches on: the
lowercased file extension, the (exception-absorbed) result of
`_pdf_to_base64_images`, and the oracle outcome of the inference call. -/
structure ExtractInput where
  ext : String
  images : List String
  outcome : ExtractOutcome

/-- Embedding of `InvoiceExtractor.extract_invoice_data` with the extractor's counter
state passed explicitly.  The call is issued only for a `.pdf` with at least
one rendered image; otherwise the `UNKNOWN` fallback record is returned.  A
raised call or parse error is absorbed into the `ERROR` sentinel.  Counters
are assigned only when a response carried usage; they are NOT reset
otherwise. -/
def extract_invoice_data (st : Tok) (inp : ExtractInput) : RawInvoice × Tok :=
  if inp.ext = ".pdf" ∧ inp.images ≠ [] then
    match inp.outcome with
    | .callFailure msg => (errorSentinel msg, st)
    | .parsed usage res =>
        let st' := match usage with | some u => u | none => st
        match res with
        | .ok r => (r, st')
        | .error msg => (errorSentinel msg, st')
  else
    (unknownSentinel, st)

/-- Embedding of `InvoiceProcessor._check_tax_exempt`: blank notes short-circuit to
`(False, 0, 0)` without any call; otherwise the reply content is stripped,
uppercased and compared to `"YES"`, with token usage passed through
(`0` when none was reported); any exception yields `(False, 0, 0)`. -/
def check_tax_exempt (notes : String) (outcome : CallOutcome) : Bool × Nat × Nat :=
  if notes = "" || pyStrip notes = "" then (false, 0, 0)
  else
    match outcome with
    | .failure => (false, 0, 0)
    | .badContent _ => (false, 0, 0)
    | .success content usage =>
        let u := usage.getD (0, 0)
        (pyUpper (pyStrip content) == "YES", u.1, u.2)

/-- One fully processed line item (`ClassifiedLineItem`), the dict built at
the bottom of the per-item loop of `process_invoice`. -/
structure ClassifiedLineItem where
  description : String
  quantity : ℚ
  unit_price : ℚ
  line_total : ℚ
  tax_category : String
  tax_rate : ℚ
  tax_amount : ℚ
  line_total_with_tax : ℚ
deriving DecidableEq

/-- The per-invoice result dict assembled by `process_invoice`.
`ProcessingDateTime` (wall clock) is not modelled. -/
structure InvoiceResult where
  InvoiceID : String
  FileName : String
  VendorName : String
  InvoiceDate : String
  AIPromptTokens : Nat
  AICompletionTokens : Nat
  InvoicePreTaxTotal : ℚ
  InvoiceTaxTotal : ℚ
  InvoicePostTaxTotal : ℚ
  InvoiceLineItems : List ClassifiedLineItem
  SpecialNotes : String
deriving DecidableEq

/-- The exemption marker appended by `process_invoice`
(`f"{tax_category} (TAX-EXEMPT)"`). -/
def exemptMarker : String := " (TAX-EXEMPT)"

/-- Result of the per-item loop: on success the classified items, the
summed classification token counts, and the running `total_pre_tax` and
`total_tax`; `matcherSt` is the matcher's counter state when the loop ended
(normally or by a raised coercion error). -/
structure ItemsResult where
  out : Except String (List ClassifiedLineItem × Tok × ℚ × ℚ)
  matcherSt : Tok

/-- The body of `for item in extracted_data.get('line_items', [])` in
`process_invoice`: coerce `quantity`, `unit_price`, `total` with `float`
(raising aborts the invoice), classify the description (oracle `co i` for
the i-th item), read the matcher's counters into the invoice token totals,
apply the exemption override, and compute the tax. -/
def processItems (t : Table) (ex : Bool) (co : Nat → CallOutcome) :
    List RawItem → Nat → Tok → ItemsResult
  | [], _, st => ⟨.ok ([], (0, 0), 0, 0), st⟩
  | item :: rest, i, st =>
      match pyFloat (pyGet item.quantity (.num 0)) with
      | .error e => ⟨.error e, st⟩
      | .ok q =>
        match pyFloat (pyGet item.unit_price (.num 0)) with
        | .error e => ⟨.error e, st⟩
        | .ok up =>
          match pyFloat (pyGet item.total (.num (q * up))) with
          | .error e => ⟨.error e, st⟩
          | .ok lt =>
              let desc := item.description.getD ""
              let mc := match_category t st desc (co i)
              let st' := mc.2
              let catRate :=
                if ex then (mc.1.1 ++ exemptMarker, (0 : ℚ)) else mc.1
              let tax := lt * (catRate.2 / 100)
              let cli : ClassifiedLineItem :=
                { description := desc
                  quantity := q
                  unit_price := up
                  line_total := lt
                  tax_category := catRate.1
                  tax_rate := catRate.2
                  tax_amount := tax
                  line_total_with_tax := lt + tax }
              let r := processItems t ex co rest (i + 1) st'
              match r.out with
              | .error e => ⟨.error e, r.matcherSt⟩
              | .ok (items, toks, pre, tx) =>
                  ⟨.ok (cli :: items, (st'.1 + toks.1, st'.2 + toks.2),
                        lt + pre, tax + tx), r.matcherSt⟩

/-- The mutable state of an `InvoiceProcessor` instance (and its two
component instances) that the claims depend on. -/
structure ProcState where
  extractorTokens : Tok := (0, 0)
  matcherTokens : Tok := (0, 0)
  total_prompt_tokens : Nat := 0
  total_completion_tokens : Nat := 0
  results : List InvoiceResult := []
deriving DecidableEq

/-- Everything one `process_invoice(file_path)` run depends on: the file
name, the extraction-call inputs, the exemption-check oracle, and the
classification oracle for each line item (by index). -/
structure PipelineInput where
  fileName : String
  extract : ExtractInput
  exemptionOutcome : CallOutcome
  classify : Nat → CallOutcome

/-- Embedding of `InvoiceProcessor.process_invoice`.  Returns the result dict (or the
propagated coercion error) together with the instance state after the call.
On an error the already-performed mutations of the component counters
remain; `results` and the process-wide totals are untouched. -/
def process_invoice (t : Table) (st : ProcState) (inp : PipelineInput) :
    Except String InvoiceResult × ProcState :=
  let ex := extract_invoice_data st.extractorTokens inp.extract
  let extracted := ex.1
  let extSt := ex.2
  let notes := extracted.notes.getD ""
  let c := check_tax_exempt notes inp.exemptionOutcome
  let isEx := c.1
  let r := processItems t isEx inp.classify (extracted.line_items.getD []) 0 st.matcherTokens
  match r.out with
  | .error e =>
      (.error e, { st with extractorTokens := extSt, matcherTokens := r.matcherSt })
  | .ok (items, ctoks, pre, tax) =>
      let ipt := extSt.1 + c.2.1 + ctoks.1
      let ict := extSt.2 + c.2.2 + ctoks.2
      let result : InvoiceResult :=
        { InvoiceID := extracted.invoice_number.getD "UNKNOWN"
          FileName := inp.fileName
          VendorName := extracted.vendor_name.getD "UNKNOWN"
          InvoiceDate := extracted.invoice_date.getD ""
          AIPromptTokens := ipt
          AICompletionTokens := ict
          InvoicePreTaxTotal := round2 pre
          InvoiceTaxTotal := round2 tax
          InvoicePostTaxTotal := round2 (pre + tax)
          InvoiceLineItems := items
          SpecialNotes := extracted.notes.getD "" }
      (.ok result,
        { extractorTokens := extSt
          matcherTokens := r.matcherSt
          total_prompt_tokens := st.total_prompt_tokens + ipt
          total_completion_tokens := st.total_completion_tokens + ict
          results := st.results ++ [result] })

/-- The `for invoice_file in invoice_files` loop of
`InvoiceProcessor.process_all_invoices`: each invoice is processed in turn;
a raised error is caught and the loop continues with the next file. -/
def process_all_invoices (t : Table) (st : ProcState) :
    List PipelineInput → ProcState
  | [] => st
  | inp :: rest => process_all_invoices t (process_invoice t st inp).2 rest

/-- Sum of the per-invoice (rounded) pre-tax totals, as in
`save_summary_report`. -/
def preTaxSum (results : List InvoiceResult) : ℚ :=
  (results.map (fun r => r.InvoicePreTaxTotal)).sum

/-- Sum of the per-invoice (rounded) tax totals, as in
`save_summary_report`. -/
def taxSum (results : List InvoiceResult) : ℚ :=
  (results.map (fun r => r.InvoiceTaxTotal)).sum

/-- The `Effective Tax Rate` figure of `save_summary_report`:
`(total_tax / total_pre_tax * 100) if total_pre_tax > 0 else 0`. -/
def effectiveTaxRate (results : List InvoiceResult) : ℚ :=
  if preTaxSum results > 0 then taxSum results / preTaxSum results * 100 else 0

/-- A field value for which Python `float()` raises: `None`, or a string that
does not parse as a number. -/
def badVal : PyVal → Bool
  | .pnull => true
  | .str s => (pyFloatOfString s).isNone
  | .num _ => false

/-- A raw line item one of whose present numeric slots makes `float()`
raise in `process_invoice`. -/
def badItem (it : RawItem) : Bool :=
  ((it.quantity.map badVal).getD false) ||
  ((it.unit_price.map badVal).getD false) ||
  ((it.total.map badVal).getD false)

/-! ### Concrete instances used by counterexamples and witnesses -/

/-- A freshly constructed `InvoiceProcessor`'s state. -/
def procState0 : ProcState := {}

/-- A one-category table for the unrounded-tax counterexample. -/
def tableC1 : Table := [("Stuff", 7)]

/-- Extraction with a single line item of total `0.3` at category rate 7%:
the unrounded tax is `0.021`. -/
def rawC1 : RawInvoice :=
  { invoice_number := some "I1"
    vendor_name := some "V"
    invoice_date := some "2024-01-01"
    line_items := some [{ description := some "x", quantity := some (.num 1),
                          unit_price := some (.num (3/10)), total := none }]
    notes := some "" }

/-- Pipeline input delivering `rawC1` with an exact category reply. -/
def inputC1 : PipelineInput :=
  { fileName := "a.pdf"
    extract := { ext := ".pdf", images := ["img"], outcome := .parsed none (.ok rawC1) }
    exemptionOutcome := .failure
    classify := fun _ => .success "Stuff" none }

/-- A table whose only rate is 100%, for the rounding-divergence input. -/
def tableC10 : Table := [("X", 100)]

/-- Extraction with a single line item of total `0.004` at 100% tax:
pre-tax and tax each round to `0.00` but their sum rounds to `0.01`. -/
def rawC10 : RawInvoice :=
  { invoice_number := some "I2"
    vendor_name := some "W"
    invoice_date := some "2024-02-02"
    line_items := some [{ description := some "y", quantity := some (.num 1),
                          unit_price := some (.num (1/250)), total := none }]
    notes := some "" }

/-- Pipeline input delivering `rawC10` with an exact category reply. -/
def inputC10 : PipelineInput :=
  { fileName := "b.pdf"
    extract := { ext := ".pdf", images := ["img"], outcome := .parsed none (.ok rawC10) }
    exemptionOutcome := .failure
    classify := fun _ => .success "X" none }

/-- Extraction whose notes trigger the exemption path. -/
def rawC4 : RawInvoice :=
  { invoice_number := some "I3"
    vendor_name := some "V"
    invoice_date := some "2024-03-03"
    line_items := some [{ description := some "x", quantity := some (.num 2),
                          unit_price := some (.num 5), total := none }]
    notes := some "tax exempt per state code 123" }

/-- Pipeline input for an exempt invoice whose exemption check answers
`"YES"`. -/
def inputC4 : PipelineInput :=
  { fileName := "c.pdf"
    extract := { ext := ".pdf", images := ["img"], outcome := .parsed none (.ok rawC4) }
    exemptionOutcome := .success "YES" (some (3, 1))
    classify := fun _ => .success "Stuff" none }

/-- Extraction with a line item whose `quantity` key holds JSON `null`. -/
def rawC9 : RawInvoice :=
  { invoice_number := some "I4"
    vendor_name := some "V"
    invoice_date := some "2024-04-04"
    line_items := some [{ description := some "z", quantity := some .pnull,
                          unit_price := some (.num 1), total := some (.num 1) }]
    notes := some "" }

/-- Pipeline input delivering the null-quantity line item. -/
def inputC9 : PipelineInput :=
  { fileName := "d.pdf"
    extract := { ext := ".pdf", images := ["img"], outcome := .parsed none (.ok rawC9) }
    exemptionOutcome := .failure
    classify := fun _ => .success "Stuff" none }

/-- The line item the pipeline emits for `inputC1`: tax is the UNROUNDED
`0.3 × 7% = 0.021`. -/
def itemC1 : ClassifiedLineItem :=
  { description := "x"
    quantity := 1
    unit_price := 3/10
    line_total := 3/10
    tax_category := "Stuff"
    tax_rate := 7
    tax_amount := 21/1000
    line_total_with_tax := 321/1000 }

/-- The result record the pipeline produces for `inputC1`. -/
def resultC1 : InvoiceResult :=
  { InvoiceID := "I1"
    FileName := "a.pdf"
    VendorName := "V"
    InvoiceDate := "2024-01-01"
    AIPromptTokens := 0
    AICompletionTokens := 0
    InvoicePreTaxTotal := 3/10
    InvoiceTaxTotal := 1/50
    InvoicePostTaxTotal := 8/25
    InvoiceLineItems := [itemC1]
    SpecialNotes := "" }

/-- The line item the pipeline emits for `inputC10`. -/
def itemC10 : ClassifiedLineItem :=
  { description := "y"
    quantity := 1
    unit_price := 1/250
    line_total := 1/250
    tax_category := "X"
    tax_rate := 100
    tax_amount := 1/250
    line_total_with_tax := 1/125 }

/-- The result record for `inputC10`: pre-tax and tax each round to 0 but
the post-tax total rounds to `0.01`. -/
def resultC10 : InvoiceResult :=
  { InvoiceID := "I2"
    FileName := "b.pdf"
    VendorName := "W"
    InvoiceDate := "2024-02-02"
    AIPromptTokens := 0
    AICompletionTokens := 0
    InvoicePreTaxTotal := 0
    InvoiceTaxTotal := 0
    InvoicePostTaxTotal := 1/100
    InvoiceLineItems := [itemC10]
    SpecialNotes := "" }

/-- The line item the pipeline emits for the exempt invoice `inputC4`. -/
def itemC4 : ClassifiedLineItem :=
  { description := "x"
    quantity := 2
    unit_price := 5
    line_total := 10
    tax_category := "Stuff (TAX-EXEMPT)"
    tax_rate := 0
    tax_amount := 0
    line_total_with_tax := 10 }

/-- The result record for the exempt invoice `inputC4`. -/
def resultC4 : InvoiceResult :=
  { InvoiceID := "I3"
    FileName := "c.pdf"
    VendorName := "V"
    InvoiceDate := "2024-03-03"
    AIPromptTokens := 3
    AICompletionTokens := 1
    InvoicePreTaxTotal := 10
    InvoiceTaxTotal := 0
    InvoicePostTaxTotal := 10
    InvoiceLineItems := [itemC4]
    SpecialNotes := "tax exempt per state code 123" }

/-- An `InvoiceResult` with pre-tax total 100 and tax total 8, for the
effective-tax-rate witness. -/
def resultC8 : InvoiceResult :=
  { InvoiceID := "A"
    FileName := "a.pdf"
    VendorName := "V"
    InvoiceDate := "2024-01-01"
    AIPromptTokens := 0
    AICompletionTokens := 0
    InvoicePreTaxTotal := 100
    InvoiceTaxTotal := 8
    InvoicePostTaxTotal := 108
    InvoiceLineItems := []
    SpecialNotes := "" }

/-! ### Helper lemmas -/

theorem nil_isPrefixOf (l : List Char) : ([] : List Char).isPrefixOf l = true := by
  cases l <;> rfl

theorem pyInStr_empty_left (b : String) : pyInStr "" b = true := by
  unfold pyInStr
  rw [List.any_eq_true]
  refine ⟨b.data, ?_, nil_isPrefixOf _⟩
  simp [List.mem_tails]

theorem dictContains_of_mem (t : Table) (e : String × ℚ) (he : e ∈ t) :
    dictContains t e.1 = true := by
  unfold dictContains
  rw [List.any_eq_true]
  exact ⟨e, he, by simp⟩

theorem round2_low (q : ℚ) (n : ℤ) (h1 : (n : ℚ) ≤ q * 100) (h2 : q * 100 < (n : ℚ) + 1/2) :
    round2 q = (n : ℚ) / 100 := by
  have hf : ⌊q * 100⌋ = n := by
    rw [Int.floor_eq_iff]
    exact ⟨h1, by linarith⟩
  simp only [round2, roundHalfEven, hf]
  rw [if_pos (by linarith)]

theorem round2_high (q : ℚ) (n : ℤ) (h1 : (n : ℚ) + 1/2 < q * 100) (h2 : q * 100 < (n : ℚ) + 1) :
    round2 q = ((n : ℚ) + 1) / 100 := by
  have hf : ⌊q * 100⌋ = n := by
    rw [Int.floor_eq_iff]
    exact ⟨by linarith, by linarith⟩
  simp only [round2, roundHalfEven, hf]
  rw [if_neg (by linarith), if_pos (by linarith)]
  push_cast
  ring

theorem processItems_ok_spec (t : Table) (ex : Bool) (co : Nat → CallOutcome)
    (items : List RawItem) :
    ∀ (i : Nat) (st : Tok) clis toks pre tax,
      (processItems t ex co items i st).out = .ok (clis, toks, pre, tax) →
      pre = (clis.map (fun c => c.line_total)).sum ∧
      tax = (clis.map (fun c => c.tax_amount)).sum ∧
      ∀ cli ∈ clis,
        cli.tax_amount = cli.line_total * (cli.tax_rate / 100) ∧
        cli.line_total_with_tax = cli.line_total + cli.tax_amount ∧
        (ex = true → cli.tax_rate = 0 ∧ ∃ base, cli.tax_category = base ++ exemptMarker) := by
  induction items with
  | nil =>
      intro i st clis toks pre tax h
      simp only [processItems, Except.ok.injEq, Prod.mk.injEq] at h
      obtain ⟨h1, _, h3, h4⟩ := h
      subst h1; subst h3; subst h4
      simp
  | cons item rest ih =>
      intro i st clis toks pre tax h
      simp only [processItems] at h
      split at h
      · simp at h
      · split at h
        · simp at h
        · split at h
          · simp at h
          · split at h
            · simp at h
            · next items' toks' pre' tx' heq =>
              simp only [Except.ok.injEq, Prod.mk.injEq] at h
              obtain ⟨h1, _, h3, h4⟩ := h
              obtain ⟨ihp, iht, ihm⟩ := ih _ _ _ _ _ _ heq
              subst h1; subst h3; subst h4
              refine ⟨by simp [ihp], by simp [iht], ?_⟩
              intro cli hcli
              rcases List.mem_cons.mp hcli with hc | hc
              · subst hc
                refine ⟨rfl, rfl, fun hex => ?_⟩
                subst hex
                exact ⟨by simp,
                  (match_category t st (item.description.getD "") (co i)).1.1, by simp⟩
              · exact ihm cli hc

theorem pyFloat_of_badVal (v : PyVal) (h : badVal v = true) :
    ∃ e, pyFloat v = .error e := by
  cases v with
  | num q => simp [badVal] at h
  | str s =>
      simp only [badVal, Option.isNone_iff_eq_none] at h
      exact ⟨"could not convert string to float: " ++ s, by simp [pyFloat, h]⟩
  | pnull => exact ⟨_, rfl⟩

theorem badItem_elim (it : RawItem) (h : badItem it = true) :
    (∃ v, it.quantity = some v ∧ badVal v = true) ∨
    (∃ v, it.unit_price = some v ∧ badVal v = true) ∨
    (∃ v, it.total = some v ∧ badVal v = true) := by
  simp only [badItem, Bool.or_eq_true] at h
  rcases h with (h | h) | h
  · left
    cases hq : it.quantity with
    | none => rw [hq] at h; simp at h
    | some v => rw [hq] at h; simp at h; exact ⟨v, rfl, h⟩
  · right; left
    cases hq : it.unit_price with
    | none => rw [hq] at h; simp at h
    | some v => rw [hq] at h; simp at h; exact ⟨v, rfl, h⟩
  · right; right
    cases hq : it.total with
    | none => rw [hq] at h; simp at h
    | some v => rw [hq] at h; simp at h; exact ⟨v, rfl, h⟩

theorem processItems_error_of_badItem (t : Table) (ex : Bool) (co : Nat → CallOutcome)
    (items : List RawItem) :
    ∀ (i : Nat) (st : Tok),
      (∃ it ∈ items, badItem it = true) →
      ∃ e, (processItems t ex co items i st).out = .error e := by
  induction items with
  | nil => intro i st h; simp at h
  | cons item rest ih =>
      intro i st h
      rcases h with ⟨it, hmem, hbad⟩
      simp only [processItems]
      split
      · next e _ => exact ⟨e, rfl⟩
      · next q hq =>
        split
        · next e _ => exact ⟨e, rfl⟩
        · next up hu =>
          split
          · next e _ => exact ⟨e, rfl⟩
          · next lt ht =>
            split
            · next e _ => exact ⟨e, rfl⟩
            · next items' toks pre tx hrec =>
              exfalso
              rcases List.mem_cons.mp hmem with rfl | hmem'
              · rcases badItem_elim it hbad with ⟨v, hv, hb⟩ | ⟨v, hv, hb⟩ | ⟨v, hv, hb⟩
                · obtain ⟨e, he⟩ := pyFloat_of_badVal v hb
                  rw [hv] at hq
                  simp only [pyGet, Option.getD_some] at hq
                  rw [he] at hq
                  exact Except.noConfusion hq
                · obtain ⟨e, he⟩ := pyFloat_of_badVal v hb
                  rw [hv] at hu
                  simp only [pyGet, Option.getD_some] at hu
                  rw [he] at hu
                  exact Except.noConfusion hu
                · obtain ⟨e, he⟩ := pyFloat_of_badVal v hb
                  rw [hv] at ht
                  simp only [pyGet, Option.getD_some] at ht
                  rw [he] at ht
                  exact Except.noConfusion ht
              · obtain ⟨e, he⟩ := ih (i + 1)
                  ((match_category t st (item.description.getD "") (co i)).2)
                  ⟨it, hmem', hbad⟩
                rw [he] at hrec
                exact Except.noConfusion hrec

theorem process_invoice_ok (t : Table) (st : ProcState) (inp : PipelineInput)
    (r : InvoiceResult) (h : (process_invoice t st inp).1 = .ok r) :
    ∃ items ctoks pre tax,
      (processItems t
          (check_tax_exempt
            ((extract_invoice_data st.extractorTokens inp.extract).1.notes.getD "")
            inp.exemptionOutcome).1
          inp.classify
          ((extract_invoice_data st.extractorTokens inp.extract).1.line_items.getD [])
          0 st.matcherTokens).out = .ok (items, ctoks, pre, tax) ∧
      r.InvoiceLineItems = items ∧
      r.InvoicePreTaxTotal = round2 pre ∧
      r.InvoiceTaxTotal = round2 tax ∧
      r.InvoicePostTaxTotal = round2 (pre + tax) := by
  simp only [process_invoice] at h
  split at h
  · simp at h
  · next items ctoks pre tax heq =>
      simp only [Except.ok.injEq] at h
      subst h
      exact ⟨items, ctoks, pre, tax, heq, rfl, rfl, rfl, rfl⟩

theorem run_C1 : (process_invoice tableC1 procState0 inputC1).1 = .ok resultC1 := by
  have hm : match_category [("Stuff", 7)] (0 : Tok) "x" (.success "Stuff" none)
      = (("Stuff", 7), (0 : Tok)) := by decide
  have hc : check_tax_exempt "" CallOutcome.failure = (false, 0, 0) := by decide
  have r1 : round2 (3/10 : ℚ) = (30 : ℤ) / 100 := round2_low _ 30 (by norm_num) (by norm_num)
  have r2 : round2 (21/1000 : ℚ) = (2 : ℤ) / 100 := round2_low _ 2 (by norm_num) (by norm_num)
  have r3 : round2 (321/1000 : ℚ) = (32 : ℤ) / 100 := round2_low _ 32 (by norm_num) (by norm_num)
  norm_num [process_invoice, processItems, extract_invoice_data, pyFloat, pyGet,
    tableC1, rawC1, inputC1, procState0, resultC1, itemC1, hm, hc, r1, r2, r3]

theorem run_C10 : (process_invoice tableC10 procState0 inputC10).1 = .ok resultC10 := by
  have hm : match_category [("X", 100)] (0 : Tok) "y" (.success "X" none)
      = (("X", 100), (0 : Tok)) := by decide
  have hc : check_tax_exempt "" CallOutcome.failure = (false, 0, 0) := by decide
  have r1 : round2 (1/250 : ℚ) = (0 : ℤ) / 100 := round2_low _ 0 (by norm_num) (by norm_num)
  have r2 : round2 (1/125 : ℚ) = ((0 : ℤ) : ℚ) / 100 + 1 / 100 := by
    rw [round2_high _ 0 (by norm_num) (by norm_num)]
    norm_num
  norm_num [process_invoice, processItems, extract_invoice_data, pyFloat, pyGet,
    tableC10, rawC10, inputC10, procState0, resultC10, itemC10, hm, hc, r1, r2]

theorem run_C4 : (process_invoice tableC1 procState0 inputC4).1 = .ok resultC4 := by
  have hm : match_category [("Stuff", 7)] (0 : Tok) "x" (.success "Stuff" none)
      = (("Stuff", 7), (0 : Tok)) := by decide
  have hc : check_tax_exempt "tax exempt per state code 123"
      (.success "YES" (some (3, 1))) = (true, 3, 1) := by decide
  have r1 : round2 (10 : ℚ) = (1000 : ℤ) / 100 := round2_low _ 1000 (by norm_num) (by norm_num)
  have r2 : round2 (0 : ℚ) = (0 : ℤ) / 100 := round2_low _ 0 (by norm_num) (by norm_num)
  have hcat : ("Stuff" : String) ++ " (TAX-EXEMPT)" = "Stuff (TAX-EXEMPT)" := by decide
  norm_num [process_invoice, processItems, extract_invoice_data, pyFloat, pyGet,
    tableC1, rawC4, inputC4, procState0, resultC4, itemC4, exemptMarker, hm, hc, r1, r2, hcat]

/-! ### Claims -/

/-- C2 (corrected, counterexample): when the reply matches nothing and the
default category `"Packaged Snacks"` is absent from the loaded table,
`match_category` returns a category that is NOT present in the table,
contradicting the claim that the returned category is present in the
supplied table for 100% of invocations. -/
theorem C2_counterexample :
    (match_category [("Electronics", 10)] (0, 0) "Widget"
        (.success "garbage xyz" none)).1.1 = "Packaged Snacks"
  ∧ dictContains [("Electronics", 10)] "Packaged Snacks" = false := by
  constructor
  · decide
  · decide

/-- C2 (amended): for every table, counter state, description and call
outcome, the category `match_category` returns is either present in the
table or is the hard-coded default `"Packaged Snacks"` (which need not be in
the table).  The function is total, so it never raises to the caller. -/
theorem C2_in_table_or_default (t : Table) (st : Tok) (pd : String)
    (outcome : CallOutcome) :
    dictContains t (match_category t st pd outcome).1.1 = true ∨
      (match_category t st pd outcome).1.1 = defaultCategory := by
  rcases outcome with _ | ⟨content, usage⟩ | usage
  · right; rfl
  · simp only [match_category]
    split
    · next h => left; simpa using h
    · split
      · next e heq =>
          left
          simpa using dictContains_of_mem t e (List.mem_of_find?_eq_some heq)
      · right; rfl
  · right; rfl

/-- C3 (corrected, counterexample): an empty reply string does NOT resolve
to the default category: Python's `"" in s` is vacuously true, so the
substring scan accepts the FIRST category in load order instead. -/
theorem C3_counterexample :
    (match_category [("Electronics", 10), ("Packaged Snacks", 4)] (0, 0)
        "Mystery" (.success "" none)).1 = ("Electronics", 10)
  ∧ ("Electronics" : String) ≠ "Packaged Snacks" := by
  constructor
  · decide
  · decide

/-- C3 (amended): a failed call, or a reply whose content is `None`, falls
back to the fixed default category (`"Packaged Snacks"` with its table rate,
or the hard-coded rate 4.0 when absent) — absorbed by the `except` handler,
never raised.  A reply whose stripped content is no exact dict hit and
matches no category as a case-insensitive substring in either direction (in
particular any such non-empty reply) likewise falls back to the default
category.  An EMPTY reply string, however, never reaches the default on a
non-empty table: it resolves to the first category in load order (via the
vacuous substring test). -/
theorem C3_fallback (t : Table) (st : Tok) (pd raw : String) (usage : Option Tok) :
    ((match_category t st pd .failure).1 =
        (defaultCategory, dictGetD t defaultCategory defaultRate))
  ∧ ((match_category t st pd (.badContent usage)).1 =
        (defaultCategory, dictGetD t defaultCategory defaultRate))
  ∧ (dictContains t (pyStrip raw) = false →
      t.find? (fun e =>
          pyInStr (pyLower e.1) (pyLower (pyStrip raw)) ||
          pyInStr (pyLower (pyStrip raw)) (pyLower e.1)) = none →
      (match_category t st pd (.success raw usage)).1 =
        (defaultCategory, dictGetD t defaultCategory defaultRate))
  ∧ (pyStrip raw = "" → dictContains t "" = false →
      ∀ e rest, t = e :: rest →
        (match_category t st pd (.success raw usage)).1 = (e.1, dictGetD t e.1 0)) := by
  refine ⟨rfl, by cases usage <;> rfl, fun hc hfind => ?_, fun hraw hc e rest ht => ?_⟩
  · simp only [match_category]
    rw [if_neg (by simp [hc]), hfind]
  · subst ht
    simp only [match_category, hraw]
    rw [if_neg (by simp [hc])]
    rw [List.find?_cons_of_pos _ (by
      have h0 : pyLower "" = "" := by decide
      simp [h0, pyInStr_empty_left])]

/-- Witness for C3's amended statement: a non-empty reply matching nothing
(exactly or as a substring) falls back to the default pair, and on a
two-category table an empty reply resolves to the first category in load
order. -/
theorem C3_fallback_witness :
    ((match_category [("Electronics", 10)] (0, 0) "Widget"
        (.success "garbage xyz" none)).1
      = (defaultCategory, dictGetD [("Electronics", 10)] defaultCategory defaultRate))
  ∧ ((match_category [("Electronics", 10), ("Packaged Snacks", 4)] (0, 0) "Mystery"
        (.success "" none)).1
      = ("Electronics", dictGetD [("Electronics", 10), ("Packaged Snacks", 4)] "Electronics" 0)) :=
  ⟨(C3_fallback [("Electronics", 10)] (0, 0) "Widget" "garbage xyz" none).2.2.1
      (by decide) (by decide),
   (C3_fallback [("Electronics", 10), ("Packaged Snacks", 4)] (0, 0) "Mystery" "" none).2.2.2
      (by decide) (by decide) ("Electronics", 10) [("Packaged Snacks", 4)] rfl⟩

/-- C5 (confirmed): blank notes short-circuit to `(False, 0, 0)` — the
result does not depend on any call outcome, so no call is issued and the
token cost is zero; for non-blank notes the result is `True` exactly when
the call succeeded and its content, stripped and upper-cased, equals
`"YES"`; any other reply, a `None` content, or a failed call yields `False`
(fail-closed), never an exception. -/
theorem C5_exemption (notes : String) (outcome : CallOutcome) :
    (pyStrip notes = "" → check_tax_exempt notes outcome = (false, 0, 0))
  ∧ ((check_tax_exempt notes outcome).1 = true ↔
      pyStrip notes ≠ "" ∧
        ∃ c u, outcome = .success c u ∧ pyUpper (pyStrip c) = "YES") := by
  by_cases hb : pyStrip notes = ""
  · constructor
    · intro _
      simp [check_tax_exempt, hb]
    · simp [check_tax_exempt, hb]
  · have hne : ¬(notes = "") := fun h => hb (by rw [h]; rfl)
    constructor
    · intro h; exact absurd h hb
    · rcases outcome with _ | ⟨content, u⟩ | u <;>
        simp [check_tax_exempt, hb, hne]

/-- Witness for C5 at blank notes. -/
theorem C5_exemption_witness :
    check_tax_exempt "  " CallOutcome.failure = (false, 0, 0) :=
  (C5_exemption "  " CallOutcome.failure).1 (by decide)

/-- C7 (corrected, counterexample): a call that reports usage `(5, 7)`
followed by a FAILED call leaves the matcher's counters at `(5, 7)`: the
claim that after a failed call the counters equal 0 (reset per call) is
false, and the counters do retain a value from an earlier call. -/
theorem C7_counterexample :
    (match_category [("A", 1)]
        ((match_category [("A", 1)] (0, 0) "x" (.success "A" (some (5, 7)))).2)
        "y" .failure).2 = (5, 7)
  ∧ ((5, 7) : Tok) ≠ ((0, 0) : Tok) := by
  constructor
  · decide
  · decide

/-- C7 (amended): after a call that reports usage, the component's counters
equal exactly the reported counts; after a call that reports none, that
fails, or that is never issued, the counters KEEP their previous values
(initially 0) — they are not reset per call. -/
theorem C7_counters (st sm : Tok) (inp : ExtractInput) (t : Table) (pd : String) :
    (∀ u res, inp.ext = ".pdf" → inp.images ≠ [] → inp.outcome = .parsed u res →
        (extract_invoice_data st inp).2 = u.getD st)
  ∧ (¬(inp.ext = ".pdf" ∧ inp.images ≠ []) → (extract_invoice_data st inp).2 = st)
  ∧ (∀ m, inp.outcome = .callFailure m → (extract_invoice_data st inp).2 = st)
  ∧ (∀ c u, (match_category t sm pd (.success c u)).2 = u.getD sm)
  ∧ (∀ u, (match_category t sm pd (.badContent u)).2 = u.getD sm)
  ∧ (match_category t sm pd .failure).2 = sm := by
  refine ⟨?_, ?_, ?_, ?_, ?_, rfl⟩
  · intro u res h1 h2 h3
    simp only [extract_invoice_data, h3]
    rw [if_pos ⟨h1, h2⟩]
    cases u <;> cases res <;> rfl
  · intro h
    simp only [extract_invoice_data]
    rw [if_neg h]
  · intro m h3
    simp only [extract_invoice_data, h3]
    split
    · rfl
    · rfl
  · intro c u
    cases u <;> simp only [match_category, Option.getD_none, Option.getD_some] <;>
      split <;> first | rfl | (split <;> rfl)
  · intro u
    cases u <;> rfl

/-- Witness for C7's amended statement: a parsed response reporting
usage `(5, 7)` sets the extractor's counters from `(1, 2)` to `(5, 7)`. -/
theorem C7_counters_witness :
    (extract_invoice_data (1, 2)
        { ext := ".pdf", images := ["i"], outcome := .parsed (some (5, 7)) (.error "bad") }).2
      = (5, 7) :=
  (C7_counters (1, 2) (0, 0)
      { ext := ".pdf", images := ["i"], outcome := .parsed (some (5, 7)) (.error "bad") }
      [] "").1 (some (5, 7)) (.error "bad") rfl (by decide) rfl

/-- C8 (confirmed): the effective tax rate reported by
`save_summary_report` equals `total_tax / total_pre_tax * 100` whenever the
summed pre-tax total is positive, and equals 0 for an empty batch and
whenever the summed pre-tax total is 0; the division is guarded, so no
division error can occur. -/
theorem C8_effective_rate (results : List InvoiceResult) :
    (0 < preTaxSum results →
        effectiveTaxRate results = taxSum results / preTaxSum results * 100)
  ∧ (results = [] → effectiveTaxRate results = 0)
  ∧ (preTaxSum results = 0 → effectiveTaxRate results = 0) := by
  refine ⟨fun h => ?_, fun h => ?_, fun h => ?_⟩
  · simp only [effectiveTaxRate]
    rw [if_pos h]
  · subst h
    simp [effectiveTaxRate, preTaxSum]
  · simp [effectiveTaxRate, h]

/-- Witness for C8 on a singleton batch with pre-tax 100 and tax 8, and on
the empty batch. -/
theorem C8_effective_rate_witness :
    0 < preTaxSum [resultC8]
  ∧ effectiveTaxRate [resultC8] = taxSum [resultC8] / preTaxSum [resultC8] * 100
  ∧ effectiveTaxRate [] = 0 :=
  ⟨by norm_num [preTaxSum, resultC8],
   (C8_effective_rate [resultC8]).1 (by norm_num [preTaxSum, resultC8]),
   (C8_effective_rate []).2.1 rfl⟩

/-- C1 (corrected, counterexample): on a concrete invoice with one line item
of total `0.3` at rate 7%, the pipeline emits `tax_amount = 0.021`, which is
NOT `round(line_total × tax_rate / 100, 2) = 0.02`: per-line tax is not
rounded. -/
theorem C1_counterexample :
    (process_invoice tableC1 procState0 inputC1).1 = .ok resultC1
  ∧ itemC1 ∈ resultC1.InvoiceLineItems
  ∧ itemC1.tax_amount ≠ round2 (itemC1.line_total * itemC1.tax_rate / 100) := by
  refine ⟨run_C1, by simp [resultC1], ?_⟩
  have r2 : round2 (21/1000 : ℚ) = (2 : ℤ) / 100 := round2_low _ 2 (by norm_num) (by norm_num)
  norm_num [itemC1, r2]

/-- C1 (amended): for every `ClassifiedLineItem` produced by
`process_invoice`, `tax_amount` equals the UNROUNDED
`line_total × (tax_rate / 100)`, and `line_total_with_tax` equals
`line_total + tax_amount`. -/
theorem C1_tax_arithmetic (t : Table) (st : ProcState) (inp : PipelineInput)
    (r : InvoiceResult) (h : (process_invoice t st inp).1 = .ok r) :
    ∀ cli ∈ r.InvoiceLineItems,
      cli.tax_amount = cli.line_total * (cli.tax_rate / 100) ∧
      cli.line_total_with_tax = cli.line_total + cli.tax_amount := by
  obtain ⟨items, ctoks, pre, tax, heq, hitems, _, _, _⟩ := process_invoice_ok t st inp r h
  obtain ⟨_, _, hm⟩ := processItems_ok_spec _ _ _ _ _ _ _ _ _ _ heq
  rw [hitems]
  intro cli hcli
  exact ⟨(hm cli hcli).1, (hm cli hcli).2.1⟩

/-- Witness for C1's amended statement on the concrete `inputC1` run. -/
theorem C1_tax_arithmetic_witness :
    itemC1.tax_amount = itemC1.line_total * (itemC1.tax_rate / 100) ∧
    itemC1.line_total_with_tax = itemC1.line_total + itemC1.tax_amount :=
  C1_tax_arithmetic tableC1 procState0 inputC1 resultC1 run_C1 itemC1 (by simp [resultC1])

/-- C4 (confirmed): whenever the exemption detector answers true for the
extracted notes, every emitted line item has `tax_rate = 0` and a category
label carrying the fixed ` (TAX-EXEMPT)` suffix appended to the category the
matcher returned — for EVERY classification oracle, i.e. regardless of what
`CategoryMatcher` returned; classification still runs per item (its token
state threads through the loop) and only rate and label are overridden. -/
theorem C4_exempt_override (t : Table) (st : ProcState) (inp : PipelineInput)
    (r : InvoiceResult)
    (hex : (check_tax_exempt
        ((extract_invoice_data st.extractorTokens inp.extract).1.notes.getD "")
        inp.exemptionOutcome).1 = true)
    (h : (process_invoice t st inp).1 = .ok r) :
    ∀ cli ∈ r.InvoiceLineItems,
      cli.tax_rate = 0 ∧ ∃ base, cli.tax_category = base ++ exemptMarker := by
  obtain ⟨items, ctoks, pre, tax, heq, hitems, _, _, _⟩ := process_invoice_ok t st inp r h
  rw [hex] at heq
  obtain ⟨_, _, hm⟩ := processItems_ok_spec t true inp.classify _ 0 st.matcherTokens _ _ _ _ heq
  rw [hitems]
  intro cli hcli
  exact (hm cli hcli).2.2 rfl

/-- Witness for C4 on the concrete exempt invoice `inputC4`. -/
theorem C4_exempt_override_witness :
    itemC4.tax_rate = 0 ∧ ∃ base, itemC4.tax_category = base ++ exemptMarker :=
  C4_exempt_override tableC1 procState0 inputC4 resultC4 (by decide) run_C4
    itemC4 (by simp [resultC4])

/-- C6 (corrected, counterexample): for an unsupported document type the
sentinel's `vendor_name` is `"UNKNOWN"`, not empty as the claim states. -/
theorem C6_counterexample :
    (extract_invoice_data (0, 0)
        { ext := ".txt", images := [], outcome := .callFailure "boom" }).1.vendor_name
      = some "UNKNOWN"
  ∧ (some "UNKNOWN" : Option String) ≠ some "" := by
  constructor
  · decide
  · decide

/-- C6 (amended): `extract_invoice_data` is total (never raises) and on any
failure returns a sentinel record: for an unsupported type or a rendering
failure, `unknownSentinel` (`invoice_number = vendor_name = "UNKNOWN"`,
empty date, empty items, note `"Failed to extract data"`); for a call or
JSON-parse failure, `errorSentinel msg` (`invoice_number = vendor_name =
"ERROR"`, empty date, empty items, note `"Extraction error: " ++ msg`).
`vendor_name` carries the sentinel string, not the empty string. -/
theorem C6_sentinels (st : Tok) (inp : ExtractInput) :
    (¬(inp.ext = ".pdf" ∧ inp.images ≠ []) →
        (extract_invoice_data st inp).1 = unknownSentinel)
  ∧ (∀ msg, inp.ext = ".pdf" → inp.images ≠ [] → inp.outcome = .callFailure msg →
        (extract_invoice_data st inp).1 = errorSentinel msg)
  ∧ (∀ usage msg, inp.ext = ".pdf" → inp.images ≠ [] →
        inp.outcome = .parsed usage (.error msg) →
        (extract_invoice_data st inp).1 = errorSentinel msg) := by
  refine ⟨?_, ?_, ?_⟩
  · intro h
    simp only [extract_invoice_data]
    rw [if_neg h]
  · intro msg h1 h2 h3
    simp only [extract_invoice_data, h3]
    rw [if_pos ⟨h1, h2⟩]
  · intro usage msg h1 h2 h3
    simp only [extract_invoice_data, h3]
    rw [if_pos ⟨h1, h2⟩]

/-- Witness for C6's amended statement: a failed call on a renderable PDF
yields the `ERROR` sentinel. -/
theorem C6_sentinels_witness :
    (extract_invoice_data (0, 0)
        { ext := ".pdf", images := ["i"], outcome := .callFailure "boom" }).1
      = errorSentinel "boom" :=
  (C6_sentinels (0, 0)
      { ext := ".pdf", images := ["i"], outcome := .callFailure "boom" }).2.1
    "boom" rfl (by decide) rfl

/-- C9 (confirmed): if the extracted line items contain an item one of whose
present `quantity`/`unit_price`/`total` slots holds `null` or a non-numeric
string, the `float()` coercion raises, so `process_invoice` returns an
error for the whole invoice; the batch loop leaves `results` unchanged for
that file (the invoice is skipped) and continues with the remaining
files. -/
theorem C9_abort_and_skip (t : Table) (st : ProcState) (inp : PipelineInput)
    (rest : List PipelineInput)
    (h : ∃ it ∈ (extract_invoice_data st.extractorTokens inp.extract).1.line_items.getD [],
          badItem it = true) :
    (∃ e, (process_invoice t st inp).1 = .error e)
  ∧ (process_invoice t st inp).2.results = st.results
  ∧ process_all_invoices t st (inp :: rest) =
      process_all_invoices t (process_invoice t st inp).2 rest := by
  obtain ⟨e, he⟩ := processItems_error_of_badItem t
    (check_tax_exempt
      ((extract_invoice_data st.extractorTokens inp.extract).1.notes.getD "")
      inp.exemptionOutcome).1
    inp.classify
    ((extract_invoice_data st.extractorTokens inp.extract).1.line_items.getD [])
    0 st.matcherTokens h
  refine ⟨⟨e, ?_⟩, ?_, rfl⟩
  · simp only [process_invoice]
    rw [he]
  · simp only [process_invoice]
    rw [he]

/-- Witness for C9 on the concrete null-quantity invoice `inputC9`. -/
theorem C9_abort_and_skip_witness :
    (∃ e, (process_invoice tableC1 procState0 inputC9).1 = .error e)
  ∧ (process_invoice tableC1 procState0 inputC9).2.results = procState0.results
  ∧ process_all_invoices tableC1 procState0 (inputC9 :: [inputC1]) =
      process_all_invoices tableC1 (process_invoice tableC1 procState0 inputC9).2 [inputC1] :=
  C9_abort_and_skip tableC1 procState0 inputC9 [inputC1] (by decide)

/-- C10 (confirmed): `InvoicePostTaxTotal` is `round2` of the sum of the
UNROUNDED per-item totals — not the sum of the already-rounded
`InvoicePreTaxTotal` and `InvoiceTaxTotal` — and on the concrete input
`inputC10` (one item of `0.004` at 100% tax) the post-tax total `0.01`
differs from `InvoicePreTaxTotal + InvoiceTaxTotal = 0`. -/
theorem C10_post_tax (t : Table) (st : ProcState) (inp : PipelineInput)
    (r : InvoiceResult) (h : (process_invoice t st inp).1 = .ok r) :
    (r.InvoicePostTaxTotal =
      round2 ((r.InvoiceLineItems.map (fun c => c.line_total)).sum +
              (r.InvoiceLineItems.map (fun c => c.tax_amount)).sum))
  ∧ ((process_invoice tableC10 procState0 inputC10).1 = .ok resultC10
      ∧ resultC10.InvoicePostTaxTotal ≠ resultC10.InvoicePreTaxTotal + resultC10.InvoiceTaxTotal) := by
  refine ⟨?_, run_C10, by norm_num [resultC10]⟩
  obtain ⟨items, ctoks, pre, tax, heq, hitems, _, _, hpost⟩ := process_invoice_ok t st inp r h
  obtain ⟨hpre', htax', _⟩ := processItems_ok_spec _ _ _ _ _ _ _ _ _ _ heq
  rw [hitems, hpost, hpre', htax']

/-- Witness for C10 on the concrete `inputC10` run. -/
theorem C10_post_tax_witness :
    resultC10.InvoicePostTaxTotal =
      round2 ((resultC10.InvoiceLineItems.map (fun c => c.line_total)).sum +
              (resultC10.InvoiceLineItems.map (fun c => c.tax_amount)).sum) :=
  (C10_post_tax tableC10 procState0 inputC10 resultC10 run_C10).1

end Invoice
